import Mathlib

/-!
Shallow embedding of the Relay & Broadcast Engine (support-bot repository):
the reply counter, the message-mapping store, the update router, the
admin notification state machine, the broadcast job runner and the user
repository, translated from the Python sources in `src/`.
-/

namespace SupportBot

/-! ## String helpers (Python `in`, `str.strip().lower()`) -/

/-- Substring test on character lists: true iff `pat` occurs contiguously in
`s`.  Mirrors Python's `pat in s`. -/
def strContainsFrom : List Char → List Char → Bool
  | [], pat => pat.isEmpty
  | c :: rest, pat => pat.isPrefixOf (c :: rest) || strContainsFrom rest pat

/-- `strContains s pat` is Python's `pat in s` (substring containment). -/
def strContains (s pat : String) : Bool :=
  strContainsFrom s.toList pat.toList

/-- Python's `text.strip().lower()` as used for command matching in
`UpdateHandler._handle_message_created`: drop leading and trailing
whitespace, then lowercase each character. -/
def pyStripLower (s : String) : String :=
  let stripped :=
    (((s.toList.dropWhile Char.isWhitespace).reverse.dropWhile Char.isWhitespace).reverse)
  String.mk (stripped.map Char.toLower)

/-! ## Messages and the reply counter
(`src/models/message.py`, `SQLiteMessageRepository.count_replies_since_last_user_message`) -/

/-- `MessageDirection` from `src/models/message.py`. -/
inductive MessageDirection
  | fromUser
  | toUser
deriving DecidableEq, Repr

/-- A row of the `messages` table: `user_id`, `direction`, `timestamp`.
Timestamps are modelled as naturals; the table is append-only, so list order
is insertion order. -/
structure StoredMessage where
  userId : Nat
  direction : MessageDirection
  timestamp : Nat
deriving DecidableEq, Repr

/-- Maximum of a list of timestamps, `none` on the empty list.  This is the
value produced by `ORDER BY timestamp DESC LIMIT 1`. -/
def maxTimestamp : List Nat → Option Nat
  | [] => none
  | t :: ts =>
    some (match maxTimestamp ts with
          | none => t
          | some m => Nat.max t m)

/-- The `FROM_USER` rows of a given user (first query's WHERE clause). -/
def userMessageRows (msgs : List StoredMessage) (uid : Nat) : List StoredMessage :=
  msgs.filter (fun m => m.userId == uid && m.direction == MessageDirection.fromUser)

/-- Timestamp of the user's most recent `FROM_USER` message, if any. -/
def lastUserTs (msgs : List StoredMessage) (uid : Nat) : Option Nat :=
  maxTimestamp ((userMessageRows msgs uid).map (·.timestamp))

/-- `SQLiteMessageRepository.count_replies_since_last_user_message`:
find the timestamp of the most recent `FROM_USER` message of `uid`; if none,
return 0; otherwise count the `TO_USER` rows of `uid` with strictly greater
timestamp. -/
def countRepliesSinceLastUserMessage (msgs : List StoredMessage) (uid : Nat) : Nat :=
  match lastUserTs msgs uid with
  | none => 0
  | some t =>
    (msgs.filter (fun m =>
      m.userId == uid && m.direction == MessageDirection.toUser
        && decide (t < m.timestamp))).length

/-! ## Mapping store
(`SQLiteMessageRepository.save_mapping` / `get_mapping_by_message_id`).
The `message_mapping` table is keyed by `message_id` (primary key), so
`INSERT OR REPLACE` is an upsert on that key.  The `question_text` column is
written and read by the repository code; the stale dataclass in
`src/models/message.py` lacks the field, so the record here carries it as the
repository SQL and the spec's MessageMapping require. -/

/-- A row of the `message_mapping` table. -/
structure MessageMapping where
  messageId : String
  userId : Nat
  userName : String
  questionText : String
  createdAt : Nat
deriving DecidableEq, Repr

/-- The `message_mapping` table: point lookup by primary key. -/
def MappingStore : Type := String → Option MessageMapping

/-- `get_mapping_by_message_id`: point lookup; `none` when absent. -/
def getMappingByMessageId (store : MappingStore) (mid : String) : Option MessageMapping :=
  store mid

/-- `save_mapping`: `INSERT OR REPLACE` keyed by `message_id` (`created_at`
takes the current time on insert). -/
def saveMapping (store : MappingStore) (mid : String) (uid : Nat)
    (uname qtext : String) (now : Nat) : MappingStore :=
  fun k => if k = mid then some ⟨mid, uid, uname, qtext, now⟩ else store k

/-! ## Update router (`UpdateHandler._handle_message_created`) -/

/-- `LinkType` from `src/models/update.py`. -/
inductive LinkType
  | reply
  | forward
deriving DecidableEq, Repr

/-- The `link` field of a `message_created` event: a type tag and the `mid`
of the linked message (`link["message"]["mid"]`, which may be absent). -/
structure MessageLink where
  ltype : LinkType
  mid : Option String
deriving DecidableEq, Repr

/-- The fields of a `message_created` update that
`UpdateHandler._handle_message_created` reads. -/
structure MsgEvent where
  text : String
  senderIsBot : Bool
  chatId : Option Int
  recipientUserId : Option Nat
  link : Option MessageLink
deriving DecidableEq, Repr

/-- The routing scenarios of `_handle_message_created` (plus the silent
fall-through). -/
inductive Scenario
  | exportCommand
  | operatorReply
  | supportIgnored
  | startCommand
  | userMessage
  | ignored
deriving DecidableEq, Repr

/-- `UpdateHandler._handle_message_created`: first match wins, in the order
the source checks them: (1) support chat, non-bot, text `/export`;
(2) support chat, non-bot, with a link; (3) any other support-chat message;
(4) private message whose text is `/start` or `/hello`; (5) any other private
message from a non-bot; otherwise nothing. -/
def classifyMessageCreated (supportChatId : Int) (e : MsgEvent) : Scenario :=
  let text := pyStripLower e.text
  let isFromSupportChat := e.chatId == some supportChatId
  let isPrivateToBot := e.recipientUserId.isSome
  if isFromSupportChat && !e.senderIsBot && text == "/export" then
    Scenario.exportCommand
  else if isFromSupportChat && !e.senderIsBot && e.link.isSome then
    Scenario.operatorReply
  else if isFromSupportChat then
    Scenario.supportIgnored
  else if isPrivateToBot && (text == "/start" || text == "/hello") then
    Scenario.startCommand
  else if isPrivateToBot && !e.senderIsBot then
    Scenario.userMessage
  else
    Scenario.ignored

/-! ## Operator reply handling (`UpdateHandler._handle_operator_reply`) -/

/-- Externally visible side effects of handling one operator reply. -/
inductive BotEffect
  | saveOperatorMessage (userId : Nat) (text operatorName : String)
  | sendToUser (userId : Nat) (text : String)
  | editSupportMessage (messageId : String) (text : String)
deriving DecidableEq, Repr

/-- The edited support-chat message text built by
`UpdateHandler._update_reply_counter`. -/
def updatedCounterText (mapping : MessageMapping) (repliesCount : Nat) : String :=
  "📨 [" ++ mapping.userName ++ "](max://user/" ++ toString mapping.userId ++ ") (ID: "
    ++ toString mapping.userId ++ ")\n_Вопрос пользователя:_\n\n**"
    ++ mapping.questionText ++ "**\n\n💬 Ответов: " ++ toString repliesCount

/-- `UpdateHandler._handle_operator_reply`, as the list of outbound effects
it performs.  It returns early (no effect) when the link is absent, is not a
reply, carries no `mid`, carries an empty (falsy) `mid`, or the mapping store
has no record for the `mid`.  Otherwise it persists the operator message,
sends the reply to the user, and — when the send succeeds (`sendOk`) — edits
the original support-chat message with the refreshed reply count, computed
after the operator message was persisted. -/
def handleOperatorReply (store : MappingStore) (msgs : List StoredMessage)
    (link : Option MessageLink) (operatorName text : String)
    (sendOk : Bool) (now : Nat) : List BotEffect :=
  match link with
  | none => []
  | some l =>
    if l.ltype ≠ LinkType.reply then []
    else
      match l.mid with
      | none => []
      | some mid =>
        if mid = "" then []
        else
          match getMappingByMessageId store mid with
          | none => []
          | some mapping =>
            let msgsAfterSave := msgs ++ [⟨mapping.userId, MessageDirection.toUser, now⟩]
            let repliesCount := countRepliesSinceLastUserMessage msgsAfterSave mapping.userId
            [BotEffect.saveOperatorMessage mapping.userId text operatorName,
             BotEffect.sendToUser mapping.userId ("💬 " ++ text)]
              ++ (if sendOk then
                    [BotEffect.editSupportMessage mid (updatedCounterText mapping repliesCount)]
                  else [])

/-! ## Broadcast job runner (`AdminService._send_notifications_async`) -/

/-- Result of one gateway send (`send_message_to_user`): success, or an
exception whose `str(e)` the classifier inspects. -/
inductive SendOutcome
  | ok
  | err (msg : String)
deriving DecidableEq, Repr

/-- The three-way failure classification of the `except` branch. -/
inductive ErrClass
  | notActivatedE
  | notFoundE
  | otherE
deriving DecidableEq, Repr

/-- Failure classification from `_send_notifications_async`:
`"dialog.not.found" in msg or "chat.not.found" in msg` first,
then `"user.not.found" in msg`, else unclassified. -/
def classifyErr (msg : String) : ErrClass :=
  if strContains msg "dialog.not.found" || strContains msg "chat.not.found" then
    ErrClass.notActivatedE
  else if strContains msg "user.not.found" then
    ErrClass.notFoundE
  else
    ErrClass.otherE

/-- Running counters of a broadcast: `sent_count`, `not_activated_ids`,
`not_found_ids`. -/
structure BroadcastState where
  sent : Nat
  notActivated : List Nat
  notFound : List Nat
deriving DecidableEq, Repr

/-- Processing of one recipient inside the loop's `try`/`except`: a success
increments `sent`; a failure is appended to the list its class dictates, or
(unclassified) only logged. -/
def broadcastStep (st : BroadcastState) (r : Nat) : SendOutcome → BroadcastState
  | SendOutcome.ok => { st with sent := st.sent + 1 }
  | SendOutcome.err m =>
    match classifyErr m with
    | ErrClass.notActivatedE => { st with notActivated := st.notActivated ++ [r] }
    | ErrClass.notFoundE => { st with notFound := st.notFound ++ [r] }
    | ErrClass.otherE => st

/-- One progress notification sent by `_send_progress_notification`, with the
counters at emission time and the percentage
`int((sent + len(not_activated) + len(not_found)) / total * 100)`. -/
structure ProgressEvent where
  position : Nat
  sentCount : Nat
  notActivatedCount : Nat
  notFoundCount : Nat
  percentage : Nat
  isFinal : Bool
deriving DecidableEq, Repr

/-- The recipient loop of `_send_notifications_async`, starting at 1-based
index `idx` with running state `st`; `total` is `len(recipients)` and
`interval` the configured `notification_progress_interval`.  After each
recipient, a progress notification is emitted when
`index % progress_interval == 0 or index == total_recipients`. -/
def runBroadcastFrom (outcome : Nat → SendOutcome) (total interval : Nat) :
    Nat → BroadcastState → List Nat → BroadcastState × List ProgressEvent
  | _, st, [] => (st, [])
  | idx, st, r :: rest =>
    let st2 := broadcastStep st r (outcome r)
    let emitted : List ProgressEvent :=
      if idx % interval == 0 || idx == total then
        [{ position := idx
           sentCount := st2.sent
           notActivatedCount := st2.notActivated.length
           notFoundCount := st2.notFound.length
           percentage := (st2.sent + st2.notActivated.length + st2.notFound.length) * 100 / total
           isFinal := idx == total }]
      else []
    let res := runBroadcastFrom outcome total interval (idx + 1) st2 rest
    (res.1, emitted ++ res.2)

/-- Whole broadcast run: final counters and the progress notifications, in
emission order. -/
def runBroadcast (outcome : Nat → SendOutcome) (recipients : List Nat)
    (interval : Nat) : BroadcastState × List ProgressEvent :=
  runBroadcastFrom outcome recipients.length interval 1 ⟨0, [], []⟩ recipients

/-- The first-5 preview with overflow count that `_send_final_statistics`
builds for a failure class (`ids_text`). -/
def idsPreviewText (ids : List Nat) : String :=
  let base := String.intercalate ", " ((ids.take 5).map toString)
  if 5 < ids.length then
    base ++ " ... (+" ++ toString (ids.length - 5) ++ ")"
  else base

/-- The final report text built by `_send_final_statistics`.  Note: the
source computes `ids_text` for each non-empty failure class but appends only
the class-count line to `final_text`; this embedding reproduces that. -/
def finalStatisticsText (sent total : Nat) (notActivated notFound : List Nat)
    (timeStr : String) : String :=
  let t1 := "🎉 **Рассылка завершена!**\n\n📊 Доставлено: " ++ toString sent
    ++ "/" ++ toString total ++ "\n"
  let t2 := if notActivated.isEmpty then t1
    else t1 ++ "⚠️ Не активировали бота: " ++ toString notActivated.length ++ "\n"
  let t3 := if notFound.isEmpty then t2
    else t2 ++ "❌ Не найдены: " ++ toString notFound.length ++ "\n"
  t3 ++ "\n⏱ Время выполнения: " ++ timeStr

/-! ## Admin notification state machine
(`AdminStateManager`, `AdminService._start_notification_creation`,
`AdminService.handle_notification_text`) -/

/-- Modelled from the spec: the audience of a notification,
`NotificationTarget` — imported by `admin_service.py` from
`admin_state_manager`, whose copy in `src/` predates it.  Spec §3:
target audience ∈ \x7bAdmins, AllUsers\x7d. -/
inductive NotificationTarget
  | admins
  | allUsers
deriving DecidableEq, Repr

/-- `AdminState` from `src/services/admin_state_manager.py`. -/
inductive AdminState
  | idle
  | waitingNotificationText
  | confirmingNotification
deriving DecidableEq, Repr

/-- Per-administrator context: `state` and `notification_text` are the
fields of `AdminContext` in `src/`; `targetType` is Modelled from the spec:
the chosen audience stored by `set_state(..., target_type=...)` and read by
`get_target_type`, both called by `admin_service.py` but absent from the
stale `admin_state_manager.py` in `src/` (spec §3 AdminContext, §4.4). -/
structure AdminContext where
  state : AdminState
  notificationText : Option String
  targetType : Option NotificationTarget
deriving DecidableEq, Repr

/-- The `_states` dictionary: administrator id → context. -/
def AdminStates : Type := Nat → Option AdminContext

/-- `AdminStateManager.get_state`: the stored state, `IDLE` by default. -/
def getAdminState (m : AdminStates) (uid : Nat) : AdminState :=
  match m uid with
  | none => AdminState.idle
  | some c => c.state

/-- `AdminStateManager.get_notification_text`. -/
def getNotificationText (m : AdminStates) (uid : Nat) : Option String :=
  match m uid with
  | none => none
  | some c => c.notificationText

/-- Modelled from the spec: `AdminStateManager.get_target_type`, called by
`admin_service.py` but missing from the `src/` copy of the state manager —
returns the stored audience. -/
def getTargetType (m : AdminStates) (uid : Nat) : Option NotificationTarget :=
  match m uid with
  | none => none
  | some c => c.targetType

/-- `AdminStateManager.set_state` extended per the spec with the
`target_type` keyword its caller passes (Modelled from the spec: "stores
chosen audience"); as in the `src/` version, an existing context keeps its
`notification_text`. -/
def setStateWithTarget (m : AdminStates) (uid : Nat) (st : AdminState)
    (tt : NotificationTarget) : AdminStates :=
  fun u =>
    if u = uid then
      some { state := st
             notificationText := getNotificationText m uid
             targetType := some tt }
    else m u

/-- `AdminStateManager.save_notification_text`: stores the text and moves to
`CONFIRMING_NOTIFICATION`; the stored audience is untouched (spec §4.4:
audience carried over). -/
def saveNotificationText (m : AdminStates) (uid : Nat) (text : String) : AdminStates :=
  fun u =>
    if u = uid then
      some { state := AdminState.confirmingNotification
             notificationText := some text
             targetType := getTargetType m uid }
    else m u

/-- `AdminStateManager.reset_state`: removes the context. -/
def resetAdminState (m : AdminStates) (uid : Nat) : AdminStates :=
  fun u => if u = uid then none else m u

/-- State effect of `AdminService._start_notification_creation`:
move the administrator to `WAITING_NOTIFICATION_TEXT` with the chosen
audience. -/
def startNotificationCreation (m : AdminStates) (uid : Nat)
    (tt : NotificationTarget) : AdminStates :=
  setStateWithTarget m uid AdminState.waitingNotificationText tt

/-- State effect of `AdminService.handle_notification_text`: store the text
and move to confirmation. -/
def handleNotificationText (m : AdminStates) (uid : Nat) (text : String) : AdminStates :=
  saveNotificationText m uid text

/-! ## User repository
(`SQLiteUserRepository.save`, `UserService.register_or_update_user`).
The `users` schema in `src/database/connection.py` predates the
`phone_number` column the repository reads and writes; the row here carries
it as the repository SQL and the spec's User model require. -/

/-- A row of the `users` table. -/
structure UserRow where
  name : String
  phoneNumber : Option String
  firstContact : Nat
  lastContact : Nat
deriving DecidableEq, Repr

/-- The `users` table keyed by `user_id`. -/
def UsersTable : Type := Nat → Option UserRow

/-- `SQLiteUserRepository.save`: with a phone number, upsert name, phone and
`last_contact`; with `phone_number = None`, upsert only name and
`last_contact`, keeping any stored phone.  `first_contact` defaults to the
current time on insert and is never updated. -/
def saveUser (db : UsersTable) (uid : Nat) (name : String)
    (phone : Option String) (now : Nat) : UsersTable :=
  fun u =>
    if u = uid then
      match phone with
      | some p =>
        some { name := name
               phoneNumber := some p
               firstContact := match db uid with
                 | some r => r.firstContact
                 | none => now
               lastContact := now }
      | none =>
        match db uid with
        | some r => some { r with name := name, lastContact := now }
        | none => some { name := name, phoneNumber := none,
                         firstContact := now, lastContact := now }
    else db u

/-- `UserService.register_or_update_user`: builds
`UserCreate(user_id, name)` — whose `phone_number` defaults to `None` —
and saves it. -/
def registerOrUpdateUser (db : UsersTable) (uid : Nat) (name : String)
    (now : Nat) : UsersTable :=
  saveUser db uid name none now

/-! ## Concrete fixtures used in theorem statements and witnesses -/

/-- Gateway behaviour of the broadcast example: recipient 2 fails with a
`chat.not.found`-class error, everyone else succeeds. -/
def c4Outcome : Nat → SendOutcome :=
  fun r => if r == 2 then SendOutcome.err "chat.not.found" else SendOutcome.ok

/-- Gateway behaviour where every send succeeds. -/
def allOkOutcome : Nat → SendOutcome :=
  fun _ => SendOutcome.ok

/-- Recipient ids 1..97 for the progress-interval example. -/
def recipients97 : List Nat :=
  (List.range 97).map (· + 1)

/-- Support-channel event from a non-bot sender carrying a reply-link whose
text is the literal command `/export`. -/
def replyExportEvent : MsgEvent :=
  { text := "/export"
    senderIsBot := false
    chatId := some 100
    recipientUserId := none
    link := some { ltype := LinkType.reply, mid := some "m1" } }

/-- Users table holding one user with a stored phone number. -/
def phoneUsersDb : UsersTable :=
  fun u => if u = 5 then some ⟨"Old Name", some "+79991234567", 10, 20⟩ else none

/-- Gateway outcome classification of one recipient: `none` on success,
otherwise the class of the raised error's message. -/
def outcomeClass (outcome : Nat → SendOutcome) (r : Nat) : Option ErrClass :=
  match outcome r with
  | SendOutcome.ok => none
  | SendOutcome.err m => some (classifyErr m)

end SupportBot

namespace SupportBot

/-! ## Theorems -/

/-- C2: after `save_mapping`, `get_mapping_by_message_id` with the same key
returns the just-written record — same user id, user name and question text
(read-your-writes); a second save under the same key overwrites the first
(upsert keyed by message id); and the concrete
`SaveMapping("m1", 42, "Alice", "Hi") ; GetMapping("m1")` instance. -/
theorem saveMapping_read_your_writes :
    (∀ (store : MappingStore) (mid : String) (uid : Nat) (uname qtext : String) (now : Nat),
      getMappingByMessageId (saveMapping store mid uid uname qtext now) mid
        = some ⟨mid, uid, uname, qtext, now⟩) ∧
    (∀ (store : MappingStore) (mid : String) (uid₁ : Nat) (uname₁ qtext₁ : String) (now₁ : Nat)
        (uid₂ : Nat) (uname₂ qtext₂ : String) (now₂ : Nat),
      getMappingByMessageId
        (saveMapping (saveMapping store mid uid₁ uname₁ qtext₁ now₁) mid uid₂ uname₂ qtext₂ now₂)
        mid = some ⟨mid, uid₂, uname₂, qtext₂, now₂⟩) ∧
    getMappingByMessageId (saveMapping (fun _ => none) "m1" 42 "Alice" "Hi" 0) "m1"
      = some ⟨"m1", 42, "Alice", "Hi", 0⟩ := by
  refine ⟨?_, ?_, ?_⟩
  · intro store mid uid uname qtext now
    simp [getMappingByMessageId, saveMapping]
  · intro store mid uid₁ uname₁ qtext₁ now₁ uid₂ uname₂ qtext₂ now₂
    simp [getMappingByMessageId, saveMapping]
  · simp [getMappingByMessageId, saveMapping]

/-- C3 counterexample: the support-channel event that both carries a
reply-link and has text `/export` is routed to the export branch, not
classified as an operator reply — the source checks `/export` before the
reply-link, opposite to the spec's stated order. -/
theorem replyExportEvent_routed_to_export :
    classifyMessageCreated 100 replyExportEvent = Scenario.exportCommand ∧
    classifyMessageCreated 100 replyExportEvent ≠ Scenario.operatorReply := by
  decide

/-- C3 amended: every support-channel event from a non-bot sender whose
stripped lowercased text is `/export` is delegated to the export
collaborator — even when it carries a reply-link — because the `/export`
check precedes the reply-link check; first match wins. -/
theorem classify_export_wins_over_reply (supportChatId : Int) (e : MsgEvent)
    (hchat : e.chatId = some supportChatId)
    (hbot : e.senderIsBot = false)
    (htext : pyStripLower e.text = "/export")
    (hlink : e.link.isSome = true) :
    classifyMessageCreated supportChatId e = Scenario.exportCommand ∧
    classifyMessageCreated supportChatId e ≠ Scenario.operatorReply := by
  have hc : classifyMessageCreated supportChatId e = Scenario.exportCommand := by
    simp [classifyMessageCreated, hchat, hbot, htext]
  exact ⟨hc, by simp [hc]⟩

/-- C3 amended, witness at the concrete event. -/
theorem classify_export_wins_over_reply_witness :
    classifyMessageCreated 100 replyExportEvent = Scenario.exportCommand ∧
    classifyMessageCreated 100 replyExportEvent ≠ Scenario.operatorReply :=
  classify_export_wins_over_reply 100 replyExportEvent rfl rfl (by decide) rfl

/-- C6: at a broadcast whose `not_activated` class has six members, the
final report contains the elapsed-time string, yet the first-5 preview with
overflow count (`ids_text`, here `"1, 2, 3, 4, 5 ... (+1)"`) is absent from
it: `_send_final_statistics` computes `ids_text` but never appends it. -/
theorem finalStatistics_missing_ids_preview :
    idsPreviewText [1, 2, 3, 4, 5, 6] = "1, 2, 3, 4, 5 ... (+1)" ∧
    strContains (finalStatisticsText 0 6 [1, 2, 3, 4, 5, 6] [] "0 сек") "0 сек" = true ∧
    strContains (finalStatisticsText 0 6 [1, 2, 3, 4, 5, 6] [] "0 сек")
      (idsPreviewText [1, 2, 3, 4, 5, 6]) = false := by
  decide

/-- C7: an administrator in `Idle` who selects "notify" with a chosen
audience moves to `AwaitingText` with the audience stored; receiving text
then moves them to `Confirming` with the text stored and the audience
carried over. -/
theorem adminState_notify_flow (m : AdminStates) (uid : Nat)
    (tt : NotificationTarget) (text : String)
    (h : getAdminState m uid = AdminState.idle) :
    getAdminState (startNotificationCreation m uid tt) uid
        = AdminState.waitingNotificationText ∧
    getTargetType (startNotificationCreation m uid tt) uid = some tt ∧
    getAdminState (handleNotificationText (startNotificationCreation m uid tt) uid text) uid
        = AdminState.confirmingNotification ∧
    getNotificationText (handleNotificationText (startNotificationCreation m uid tt) uid text) uid
        = some text ∧
    getTargetType (handleNotificationText (startNotificationCreation m uid tt) uid text) uid
        = some tt := by
  refine ⟨?_, ?_, ?_, ?_, ?_⟩ <;>
    simp [startNotificationCreation, handleNotificationText, setStateWithTarget,
      saveNotificationText, getAdminState, getTargetType, getNotificationText]

/-- C7 witness: the flow at a fresh state map, administrator 1, audience
`allUsers`, text "Hello". -/
theorem adminState_notify_flow_witness :
    getAdminState (startNotificationCreation (fun _ => none) 1 NotificationTarget.allUsers) 1
        = AdminState.waitingNotificationText ∧
    getTargetType (startNotificationCreation (fun _ => none) 1 NotificationTarget.allUsers) 1
        = some NotificationTarget.allUsers ∧
    getAdminState (handleNotificationText
        (startNotificationCreation (fun _ => none) 1 NotificationTarget.allUsers) 1 "Hello") 1
        = AdminState.confirmingNotification ∧
    getNotificationText (handleNotificationText
        (startNotificationCreation (fun _ => none) 1 NotificationTarget.allUsers) 1 "Hello") 1
        = some "Hello" ∧
    getTargetType (handleNotificationText
        (startNotificationCreation (fun _ => none) 1 NotificationTarget.allUsers) 1 "Hello") 1
        = some NotificationTarget.allUsers :=
  adminState_notify_flow (fun _ => none) 1 NotificationTarget.allUsers "Hello" rfl

/-- C8 counterexample: with a user message and an operator reply bearing the
same timestamp (the reply inserted after the user's last message), the
counter returns 0, not 1 — the strict `timestamp > T` comparison has no
insertion-order tie-break. -/
theorem equalTimestamp_reply_not_counted :
    countRepliesSinceLastUserMessage
      [⟨7, MessageDirection.fromUser, 5⟩, ⟨7, MessageDirection.toUser, 5⟩] 7 = 0 ∧
    countRepliesSinceLastUserMessage
      [⟨7, MessageDirection.fromUser, 5⟩, ⟨7, MessageDirection.toUser, 5⟩] 7 ≠ 1 := by
  decide

/-- C9: an operator reply whose linked message id has no stored mapping is a
no-op at the public interface: no outbound send, no persisted message, no
support-chat edit — the handler returns without effects. -/
theorem operatorReply_missing_mapping_noop (store : MappingStore)
    (msgs : List StoredMessage) (l : MessageLink) (operatorName text : String)
    (sendOk : Bool) (now : Nat) (mid : String)
    (hmid : l.mid = some mid) (hstore : store mid = none) :
    handleOperatorReply store msgs (some l) operatorName text sendOk now = [] := by
  simp only [handleOperatorReply, hmid, getMappingByMessageId, hstore]
  split
  · rfl
  · split
    · rfl
    · rfl

/-- C9 witness: a reply link to message "m1" against an empty mapping store
produces no effect. -/
theorem operatorReply_missing_mapping_noop_witness :
    handleOperatorReply (fun _ => none) [] (some ⟨LinkType.reply, some "m1"⟩)
      "Op" "hi" true 3 = [] :=
  operatorReply_missing_mapping_noop (fun _ => none) [] ⟨LinkType.reply, some "m1"⟩
    "Op" "hi" true 3 "m1" rfl rfl

/-- C1: the reply counter returns 0 for a user with no user→support
message (the result is a natural, hence non-negative); and on the spec's
scenario — messages at t1 (user→support), t2 (operator→user, t2 > t1),
t3 (user→support, t3 > t2) — the count after t3 is 0 and the count between
t2 and t3 is 1. -/
theorem replyCounter_watermark (uid t1 t2 t3 : Nat) (h12 : t1 < t2) (h23 : t2 < t3) :
    (∀ msgs : List StoredMessage,
        (∀ m ∈ msgs, ¬(m.userId = uid ∧ m.direction = MessageDirection.fromUser)) →
        countRepliesSinceLastUserMessage msgs uid = 0) ∧
    countRepliesSinceLastUserMessage
      [⟨uid, MessageDirection.fromUser, t1⟩, ⟨uid, MessageDirection.toUser, t2⟩,
       ⟨uid, MessageDirection.fromUser, t3⟩] uid = 0 ∧
    countRepliesSinceLastUserMessage
      [⟨uid, MessageDirection.fromUser, t1⟩, ⟨uid, MessageDirection.toUser, t2⟩] uid = 1 := by
  have hmax : Nat.max t1 t3 = t3 := Nat.max_eq_right (Nat.le_of_lt (Nat.lt_trans h12 h23))
  have hn32 : ¬(t3 < t2) := Nat.not_lt.mpr (Nat.le_of_lt h23)
  have hd1 : (MessageDirection.fromUser == MessageDirection.toUser) = false := by decide
  have hd2 : (MessageDirection.toUser == MessageDirection.fromUser) = false := by decide
  refine ⟨?_, ?_, ?_⟩
  · intro msgs hnone
    have hrows : userMessageRows msgs uid = [] := by
      apply List.filter_eq_nil_iff.mpr
      intro m hm
      have := hnone m hm
      simp only [Bool.and_eq_true, beq_iff_eq]
      intro hc
      exact this ⟨hc.1, hc.2⟩
    simp [countRepliesSinceLastUserMessage, lastUserTs, hrows, maxTimestamp]
  · simp [countRepliesSinceLastUserMessage, lastUserTs, userMessageRows,
      List.filter, maxTimestamp, hmax, hn32, hd1, hd2]
  · simp [countRepliesSinceLastUserMessage, lastUserTs, userMessageRows,
      List.filter, maxTimestamp, h12, hd1, hd2]

/-- C1 witness: the scenario at t1 = 1, t2 = 2, t3 = 3 for user 7. -/
theorem replyCounter_watermark_witness :
    countRepliesSinceLastUserMessage
      [⟨7, MessageDirection.fromUser, 1⟩, ⟨7, MessageDirection.toUser, 2⟩,
       ⟨7, MessageDirection.fromUser, 3⟩] 7 = 0 ∧
    countRepliesSinceLastUserMessage
      [⟨7, MessageDirection.fromUser, 1⟩, ⟨7, MessageDirection.toUser, 2⟩] 7 = 1 :=
  (replyCounter_watermark 7 1 2 3 (by decide) (by decide)).2

/-- C8 amended: the counter compares timestamps with strict greater-than
only — an operator reply appended after the user's last message but bearing
an equal timestamp is NOT counted (appending it leaves the count unchanged);
the code has no insertion-order tie-break. -/
theorem equal_ts_reply_appended_not_counted (msgs : List StoredMessage) (uid t : Nat)
    (h : lastUserTs msgs uid = some t) :
    countRepliesSinceLastUserMessage (msgs ++ [⟨uid, MessageDirection.toUser, t⟩]) uid
      = countRepliesSinceLastUserMessage msgs uid := by
  have hrows : userMessageRows (msgs ++ [⟨uid, MessageDirection.toUser, t⟩]) uid
      = userMessageRows msgs uid := by
    unfold userMessageRows
    rw [List.filter_append]
    simp
  have hl : lastUserTs (msgs ++ [⟨uid, MessageDirection.toUser, t⟩]) uid = some t := by
    unfold lastUserTs
    rw [hrows]
    exact h
  simp only [countRepliesSinceLastUserMessage, hl, h]
  rw [List.filter_append]
  simp

/-- C8 amended, witness: one user message at timestamp 5 and an operator
reply appended at the same timestamp — the count stays 0. -/
theorem equal_ts_reply_appended_not_counted_witness :
    countRepliesSinceLastUserMessage
      ([⟨7, MessageDirection.fromUser, 5⟩] ++ [⟨7, MessageDirection.toUser, 5⟩]) 7
      = countRepliesSinceLastUserMessage [⟨7, MessageDirection.fromUser, 5⟩] 7 :=
  equal_ts_reply_appended_not_counted [⟨7, MessageDirection.fromUser, 5⟩] 7 5 rfl

/-- Helper: the final counters of the loop are a fold of `broadcastStep`
over the recipients, independent of the progress machinery. -/
theorem runBroadcastFrom_fst (o : Nat → SendOutcome) (total itv : Nat) :
    ∀ (rs : List Nat) (idx : Nat) (st : BroadcastState),
      (runBroadcastFrom o total itv idx st rs).1
        = rs.foldl (fun s r => broadcastStep s r (o r)) st := by
  intro rs
  induction rs with
  | nil => intro idx st; rfl
  | cons r rest ih =>
    intro idx st
    simp only [runBroadcastFrom, List.foldl_cons]
    exact ih (idx + 1) _

/-- Helper: how the fold accumulates the `sent` counter. -/
theorem foldl_broadcast_sent (o : Nat → SendOutcome) :
    ∀ (rs : List Nat) (st : BroadcastState),
      (rs.foldl (fun s r => broadcastStep s r (o r)) st).sent
        = st.sent + (rs.filter (fun r => outcomeClass o r == none)).length := by
  intro rs
  induction rs with
  | nil => intro st; simp
  | cons r rest ih =>
    intro st
    simp only [List.foldl_cons, List.filter_cons, ih]
    cases ho : o r with
    | ok =>
      simp [broadcastStep, outcomeClass, ho, Nat.add_assoc, Nat.add_comm 1]
    | err m =>
      cases hc : classifyErr m <;>
        simp [broadcastStep, outcomeClass, ho, hc]

/-- Helper: how the fold accumulates the `not_activated_ids` list. -/
theorem foldl_broadcast_notActivated (o : Nat → SendOutcome) :
    ∀ (rs : List Nat) (st : BroadcastState),
      (rs.foldl (fun s r => broadcastStep s r (o r)) st).notActivated
        = st.notActivated
          ++ rs.filter (fun r => outcomeClass o r == some ErrClass.notActivatedE) := by
  intro rs
  induction rs with
  | nil => intro st; simp
  | cons r rest ih =>
    intro st
    simp only [List.foldl_cons, List.filter_cons, ih]
    cases ho : o r with
    | ok => simp [broadcastStep, outcomeClass, ho]
    | err m =>
      cases hc : classifyErr m <;>
        simp [broadcastStep, outcomeClass, ho, hc]

/-- Helper: how the fold accumulates the `not_found_ids` list. -/
theorem foldl_broadcast_notFound (o : Nat → SendOutcome) :
    ∀ (rs : List Nat) (st : BroadcastState),
      (rs.foldl (fun s r => broadcastStep s r (o r)) st).notFound
        = st.notFound
          ++ rs.filter (fun r => outcomeClass o r == some ErrClass.notFoundE) := by
  intro rs
  induction rs with
  | nil => intro st; simp
  | cons r rest ih =>
    intro st
    simp only [List.foldl_cons, List.filter_cons, ih]
    cases ho : o r with
    | ok => simp [broadcastStep, outcomeClass, ho]
    | err m =>
      cases hc : classifyErr m <;>
        simp [broadcastStep, outcomeClass, ho, hc]

/-- C4: each recipient of a broadcast is processed exactly once and every
failure lands in exactly one class — `sent` counts the successes over the
whole recipient list, `not_activated_ids` collects exactly the recipients
whose error classifies as dialog/chat-not-found, `not_found_ids` exactly
those whose error classifies as user-not-found (unclassified errors land in
neither) — and a failure never aborts the rest: broadcasting to [1,2,3]
where only recipient 2 raises a `chat.not.found`-class error yields sent=2,
not-activated=[2], not-found=[]. -/
theorem broadcast_failure_classification (outcome : Nat → SendOutcome)
    (recipients : List Nat) (interval : Nat) :
    ((runBroadcast outcome recipients interval).1.sent
        = (recipients.filter (fun r => outcomeClass outcome r == none)).length) ∧
    ((runBroadcast outcome recipients interval).1.notActivated
        = recipients.filter (fun r => outcomeClass outcome r == some ErrClass.notActivatedE)) ∧
    ((runBroadcast outcome recipients interval).1.notFound
        = recipients.filter (fun r => outcomeClass outcome r == some ErrClass.notFoundE)) ∧
    (runBroadcast c4Outcome [1, 2, 3] interval).1
        = { sent := 2, notActivated := [2], notFound := [] } := by
  refine ⟨?_, ?_, ?_, ?_⟩
  · rw [runBroadcast, runBroadcastFrom_fst, foldl_broadcast_sent]
    simp
  · rw [runBroadcast, runBroadcastFrom_fst, foldl_broadcast_notActivated]
    rfl
  · rw [runBroadcast, runBroadcastFrom_fst, foldl_broadcast_notFound]
    rfl
  · rw [runBroadcast, runBroadcastFrom_fst]
    decide

/-- Helper: positions of the emitted progress notifications — recipient
indices (1-based, here starting at `idx`) that are multiples of the interval
or equal to the total. -/
theorem runBroadcastFrom_positions (o : Nat → SendOutcome) (total itv : Nat) :
    ∀ (rs : List Nat) (idx : Nat) (st : BroadcastState),
      ((runBroadcastFrom o total itv idx st rs).2.map (·.position))
        = ((List.range rs.length).map (· + idx)).filter
            (fun k => k % itv == 0 || k == total) := by
  intro rs
  induction rs with
  | nil => intro idx st; simp [runBroadcastFrom]
  | cons r rest ih =>
    intro idx st
    have hfun : ((fun k => k + idx) ∘ Nat.succ) = (fun k => k + (idx + 1)) := by
      funext k
      simp [Function.comp, Nat.succ_eq_add_one]
      omega
    simp only [runBroadcastFrom, List.map_append, ih (idx + 1), List.length_cons,
      List.range_succ_eq_map, List.map_cons, List.map_map, hfun, List.filter_cons,
      Nat.zero_add]
    by_cases hp : (idx % itv == 0 || idx == total) = true
    · simp [hp]
    · simp [hp]

/-- Helper: every emitted progress notification carries the percentage
`(sent + not_activated + not_found) * 100 / total` of its own counters. -/
theorem runBroadcastFrom_percentage (o : Nat → SendOutcome) (total itv : Nat) :
    ∀ (rs : List Nat) (idx : Nat) (st : BroadcastState),
      ∀ e ∈ (runBroadcastFrom o total itv idx st rs).2,
        e.percentage
          = (e.sentCount + e.notActivatedCount + e.notFoundCount) * 100 / total := by
  intro rs
  induction rs with
  | nil => intro idx st e he; simp [runBroadcastFrom] at he
  | cons r rest ih =>
    intro idx st e he
    simp only [runBroadcastFrom, List.mem_append] at he
    rcases he with he | he
    · by_cases hp : (idx % itv == 0 || idx == total) = true
      · rw [if_pos hp] at he
        simp only [List.mem_singleton] at he
        subst he
        rfl
      · rw [if_neg hp] at he
        simp at he
    · exact ih (idx + 1) _ e he

/-- C5: for every recipient list and positive progress interval N, progress
notifications are emitted exactly after the k-th recipient for each k that
is a multiple of N, and after the last recipient regardless of
divisibility; each notification's percentage is
`(sent + not-activated + not-found) * 100 / total` (integer division, as
`int(... / total * 100)` computes for these non-negative counters). -/
theorem broadcast_progress_schedule (outcome : Nat → SendOutcome)
    (recipients : List Nat) (interval : Nat) (hpos : 0 < interval) :
    ((runBroadcast outcome recipients interval).2.map (·.position))
        = ((List.range recipients.length).map (· + 1)).filter
            (fun k => k % interval == 0 || k == recipients.length) ∧
    ∀ e ∈ (runBroadcast outcome recipients interval).2,
      e.percentage
        = (e.sentCount + e.notActivatedCount + e.notFoundCount) * 100
            / recipients.length := by
  constructor
  · exact runBroadcastFrom_positions outcome recipients.length interval recipients 1 ⟨0, [], []⟩
  · intro e he
    exact runBroadcastFrom_percentage outcome recipients.length interval
      recipients 1 ⟨0, [], []⟩ e he

/-- C5 witness: 97 recipients with interval 10 produce notifications at
positions 10, 20, ..., 90 and 97. -/
theorem broadcast_progress_schedule_witness :
    ((runBroadcast allOkOutcome recipients97 10).2.map (·.position))
      = [10, 20, 30, 40, 50, 60, 70, 80, 90, 97] := by
  have h := (broadcast_progress_schedule allOkOutcome recipients97 10 (by decide)).1
  rw [h]
  decide

/-- C10: re-registering a stored user (phone always passed as `None`)
updates only the name and last-contact time; the stored phone number and
first-contact time are unchanged, and every other user's row is untouched. -/
theorem registerOrUpdateUser_frame (db : UsersTable) (uid : Nat) (name : String)
    (now : Nat) (row : UserRow) (h : db uid = some row) :
    (registerOrUpdateUser db uid name now uid
      = some { name := name, phoneNumber := row.phoneNumber,
               firstContact := row.firstContact, lastContact := now }) ∧
    ∀ u, u ≠ uid → registerOrUpdateUser db uid name now u = db u := by
  constructor
  · simp [registerOrUpdateUser, saveUser, h]
  · intro u hu
    simp [registerOrUpdateUser, saveUser, hu]

/-- C10 witness: user 5 with a stored phone number keeps it (and the
first-contact time) across re-registration. -/
theorem registerOrUpdateUser_frame_witness :
    registerOrUpdateUser phoneUsersDb 5 "New Name" 30 5
      = some { name := "New Name", phoneNumber := some "+79991234567",
               firstContact := 10, lastContact := 30 } :=
  (registerOrUpdateUser_frame phoneUsersDb 5 "New Name" 30
    ⟨"Old Name", some "+79991234567", 10, 20⟩ rfl).1

end SupportBot
